import Mathlib

/-
Verification development for the donation-forecast dashboard (src/app.py).

The file embeds, as executable Lean definitions, the parts of the program
the claims speak about:
  * `load_data` (src/app.py lines 14-32): column auto-detection by
    lowercase substring match, all-or-nothing date parsing, renaming the
    two selected columns to "ds" and "y";
  * the sidebar filter block (src/app.py lines 76-87): conjunction of
    `isin` masks, applied only when at least one selection is non-empty;
  * the forecast block (src/app.py lines 126-134): the dataframe
    `df[["ds","y"]]` handed to the external model, and the future grid
    `make_future_dataframe(periods=months, freq='M')`.

The external Prophet model is a black box: it is embedded as an opaque-to-us
function parameter `model : List (Date × Int) → Date → Int × Int × Int`
(fitted input ↦ per-timestamp point estimate, lower bound, upper bound).
What IS embedded concretely is the grid the program asks the model to
predict on: Prophet's `make_future_dataframe` returns the sorted distinct
history dates followed by `periods` dates generated at pandas frequency
'M', which is the month-END alias — successive last-days-of-month strictly
after the last history date.

Dates are modelled as (year, month, day) triples with exact Nat arithmetic;
amounts as Int (the program's numeric column, with exact arithmetic).
Date parsing models `pd.to_datetime` on ISO "YYYY-MM-DD" strings: a
well-formed ISO date parses, anything else is a parse failure.
-/

/-- Calendar date: year, month, day. -/
structure Date where
  y : Nat
  m : Nat
  d : Nat
deriving DecidableEq, Repr

/-- Numeric key giving the lexicographic order on dates. -/
def Date.toKey (dt : Date) : Nat := dt.y * 10000 + dt.m * 100 + dt.d

/-- Gregorian leap-year test. -/
def leapYear (y : Nat) : Bool := y % 4 = 0 && (y % 100 != 0 || y % 400 = 0)

/-- Number of days in a month of a given year. -/
def daysInMonth (y m : Nat) : Nat :=
  if m = 2 then (if leapYear y then 29 else 28)
  else if m = 4 ∨ m = 6 ∨ m = 9 ∨ m = 11 then 30
  else 31

/-- Successor month, rolling over the year boundary. -/
def nextMonth (y m : Nat) : Nat × Nat := if m = 12 then (y + 1, 1) else (y, m + 1)

/-- Split a character list on a separator, Python `str.split` style. -/
def splitOnChar (sep : Char) : List Char → List (List Char)
  | [] => [[]]
  | c :: cs =>
    let r := splitOnChar sep cs
    if c = sep then [] :: r
    else
      match r with
      | [] => [[c]]
      | g :: gs => (c :: g) :: gs

/-- Decimal digits to a number; fails on empty input or a non-digit. -/
def digitsToNat? (cs : List Char) : Option Nat :=
  if cs.isEmpty then none
  else
    cs.foldl
      (fun acc c =>
        match acc with
        | none => none
        | some n => if 48 ≤ c.toNat ∧ c.toNat ≤ 57 then some (n * 10 + (c.toNat - 48)) else none)
      (some 0)

/-- Parse an ISO "YYYY-MM-DD" string to a date; models `pd.to_datetime`
restricted to ISO inputs (an ill-formed string raises there, fails here). -/
def parseDate (s : String) : Option Date :=
  match splitOnChar (Char.ofNat 45) s.data with
  | [ys, ms, ds] =>
    match digitsToNat? ys, digitsToNat? ms, digitsToNat? ds with
    | some y, some m, some d =>
      if 1 ≤ m ∧ m ≤ 12 ∧ 1 ≤ d ∧ d ≤ daysInMonth y m then some ⟨y, m, d⟩ else none
    | _, _, _ => none
  | _ => none

/-- ASCII-lowercased code of a character, as Python `str.lower` acts on
the ASCII column names at hand. -/
def lowerCode (c : Char) : Nat := if 65 ≤ c.toNat ∧ c.toNat ≤ 90 then c.toNat + 32 else c.toNat

/-- Lowercased character codes of a string. -/
def lowerCodes (s : String) : List Nat := s.data.map lowerCode

/-- Test `pat in s.lower()` from the source, for the lowercase literal
patterns "date", "donation", "rwf": substring search over the lowercased
character codes of `s`. -/
def containsSub (s pat : String) : Bool :=
  (List.range ((lowerCodes s).length + 1)).any
    (fun i => (lowerCodes pat).isPrefixOf ((lowerCodes s).drop i))

/-- Raw uploaded table, as produced by `pd.read_csv`: column names and
string-valued rows aligned with the columns by position. -/
structure RawTable where
  cols : List String
  rows : List (List String)
deriving DecidableEq, Repr

/-- Loaded table returned by `load_data`: renamed columns, the original
rows, and the parsed date column (the program overwrites the date column
with its parsed values; we carry them in a separate field). -/
structure LoadedTable where
  cols : List String
  rows : List (List String)
  dates : List Date
deriving DecidableEq, Repr

/-- Test from src/app.py line 16: `"date" in c.lower()`. -/
def dateLike (c : String) : Bool := containsSub c "date"

/-- Test from src/app.py line 26: `"donation" in c.lower() and "rwf" in c.lower()`. -/
def donationLike (c : String) : Bool :=
  containsSub c "donation" && containsSub c "rwf"

/-- First column whose lowercased name contains "date" (src/app.py lines 16-20). -/
def dateColOf (t : RawTable) : Option String := (t.cols.filter dateLike).head?

/-- First column whose lowercased name contains "donation" and "rwf"
(src/app.py lines 26-30). -/
def yColOf (t : RawTable) : Option String := (t.cols.filter donationLike).head?

/-- Position of a named column. -/
def colIndex (cols : List String) (c : String) : Nat := cols.findIdx (fun x => x = c)

/-- Values of a named column, in row order (pandas `df[c]`). -/
def colValues (t : RawTable) (c : String) : List String :=
  t.rows.map (fun r => r.getD (colIndex t.cols c) "")

/-- Renaming from src/app.py line 31: `df.rename(columns={date_col: "ds",
y_col: "y"})`. When `dc = yc` the Python dict collapses to `{dc: "y"}`,
which is what checking `yc` first reproduces. -/
def renameCol (dc yc c : String) : String :=
  if c = yc then "y" else if c = dc then "ds" else c

/-- Embedding of `load_data` (src/app.py lines 14-32): pick the first
date-like column or give up; parse the whole date column, any failure
aborting the load (`pd.to_datetime` with default errors raises on the
first bad value, caught and turned into `return None`); pick the first
donation/rwf column or give up; rename the two selected columns. -/
def load_data (t : RawTable) : Option LoadedTable :=
  match dateColOf t with
  | none => none
  | some dc =>
    match (colValues t dc).mapM parseDate with
    | none => none
    | some ds =>
      match yColOf t with
      | none => none
      | some yc => some ⟨t.cols.map (renameCol dc yc), t.rows, ds⟩

/-- Row of the loaded dataframe as the filter and forecast stages see it:
parsed date "ds", numeric amount "y", and the three categorical columns. -/
structure Row where
  ds : Date
  y : Int
  donor : String
  campaign_type : String
  region : String
deriving DecidableEq, Repr

/-- Embedding of the sidebar filter block (src/app.py lines 79-87):
when at least one selection is non-empty, a conjunction of `isin` masks,
each contributing only when its selection is non-empty; when all three
selections are empty, the dataframe is left untouched. -/
def applyFilters (df : List Row) (donors campaigns regions : List String) : List Row :=
  if donors.isEmpty && campaigns.isEmpty && regions.isEmpty then df
  else
    df.filter (fun r =>
      (donors.isEmpty || decide (r.donor ∈ donors)) &&
      (campaigns.isEmpty || decide (r.campaign_type ∈ campaigns)) &&
      (regions.isEmpty || decide (r.region ∈ regions)))

/-- The dataframe handed to the model's fit call (src/app.py line 129):
`df[["ds","y"]]`, the filtered rows' (date, amount) pairs verbatim. -/
def fitInput (df : List Row) : List (Date × Int) :=
  df.map (fun r => (r.ds, r.y))

/-- Insert a date into a key-sorted list, keeping it sorted. -/
def insertSorted (x : Date) : List Date → List Date
  | [] => [x]
  | z :: zs => if x.toKey ≤ z.toKey then x :: z :: zs else z :: insertSorted x zs

/-- Insertion sort by the date key. -/
def sortDates (l : List Date) : List Date := l.foldr insertSorted []

/-- Collapse adjacent duplicates of a sorted list. -/
def dedupSorted : List Date → List Date
  | [] => []
  | [x] => [x]
  | x :: z :: zs => if x = z then dedupSorted (z :: zs) else x :: dedupSorted (z :: zs)

/-- Sorted distinct dates: Prophet's `history_dates`, i.e.
`pd.Series(df['ds'].unique()).sort_values()` over the fitted dataframe. -/
def sortedUniqueDates (l : List Date) : List Date := dedupSorted (sortDates l)

/-- Successive month-end dates starting at the end of month (y, m);
the generator behind pandas frequency 'M' (month end). -/
def monthEndsFrom : Nat → Nat → Nat → List Date
  | _, _, 0 => []
  | y, m, n + 1 =>
    ⟨y, m, daysInMonth y m⟩ :: monthEndsFrom (nextMonth y m).1 (nextMonth y m).2 n

/-- First `n` month-end dates strictly after `last`: what
`pd.date_range(start=last, periods=n+1, freq='M')` filtered to dates
greater than `last` and truncated to `n` entries produces inside
Prophet's `make_future_dataframe`. -/
def futureMonthEnds (last : Date) (n : Nat) : List Date :=
  if last.d < daysInMonth last.y last.m then monthEndsFrom last.y last.m n
  else monthEndsFrom (nextMonth last.y last.m).1 (nextMonth last.y last.m).2 n

/-- Embedding of `m.make_future_dataframe(periods=months, freq='M')`
(src/app.py line 130) with its default `include_history=True`: the sorted
distinct history dates of the fitted dataframe followed by `months`
month-end dates strictly after the last history date. -/
def makeFutureDataframe (df : List Row) (months : Nat) : List Date :=
  let hist := sortedUniqueDates (df.map (fun r => r.ds))
  match hist.getLast? with
  | none => []
  | some last => hist ++ futureMonthEnds last months

/-- One row of the prediction dataframe `fc` (src/app.py line 131):
period, `yhat`, `yhat_lower`, `yhat_upper`. -/
structure FcRow where
  ds : Date
  yhat : Int
  lo : Int
  hi : Int
deriving DecidableEq, Repr

/-- Assemble a prediction row from the model's raw (point, lower, upper)
triple; the program applies no further transformation to it. -/
def mkFcRow (dt : Date) (v : Int × Int × Int) : FcRow := ⟨dt, v.1, v.2.1, v.2.2⟩

/-- Embedding of `fc = m.predict(fut)` (src/app.py lines 128-131): the
black-box model — a function of the fitted `(ds, y)` pairs — evaluated at
every date of the future dataframe, its output kept verbatim. -/
def runForecast (model : List (Date × Int) → Date → Int × Int × Int)
    (df : List Row) (months : Nat) : List FcRow :=
  (makeFutureDataframe df months).map (fun dt => mkFcRow dt (model (fitInput df) dt))

/-- Error taxonomy named by the specification. The program's forecast
block never constructs any of these. -/
inductive PipelineError where
  | InsufficientDataError (needed found : Nat)
  | EmptyResultError
  | SchemaError (missing : List String)
  | ForecastError
deriving DecidableEq, Repr

deriving instance DecidableEq for Except

/-- The forecast block of src/app.py lines 126-131 as a fallible step:
the source performs no validation of the series before fitting, so the
step unconditionally invokes the model and succeeds. -/
def forecastStep (model : List (Date × Int) → Date → Int × Int × Int)
    (df : List Row) (months : Nat) : Except PipelineError (List FcRow) :=
  Except.ok (runForecast model df months)

/-- Filter stage followed by the forecast stage, as the program runs them
(src/app.py lines 79-87 then 126-131); no emptiness check sits between. -/
def pipelineForecast (model : List (Date × Int) → Date → Int × Int × Int)
    (df : List Row) (donors campaigns regions : List String) (months : Nat) :
    Except PipelineError (List FcRow) :=
  forecastStep model (applyFilters df donors campaigns regions) months

/-- Monthly aggregation as the specification words it (spec §4.3): assign
every record to the bucket starting on the first day of its month, sum the
value column per bucket, sort ascending by bucket start. Stated from the
spec, for comparison with what the program actually feeds the model. -/
def aggregateMonthlySpec (df : List Row) : List (Date × Int) :=
  (sortedUniqueDates (df.map (fun r => ⟨r.ds.y, r.ds.m, 1⟩))).map
    (fun b => (b, ((df.filter (fun r => r.ds.y = b.y && r.ds.m = b.m)).map (fun r => r.y)).sum))

/-- Strict ascending order of a date list, the specification's invariant
on aggregated periods. -/
def strictlyIncreasingDates : List Date → Bool
  | [] => true
  | [_] => true
  | a :: b :: r => a.toKey < b.toKey && strictlyIncreasingDates (b :: r)

/-- The specification's per-row forecast invariant `lower ≤ point ≤ upper`. -/
def boundsOk (r : FcRow) : Prop := r.lo ≤ r.yhat ∧ r.yhat ≤ r.hi

instance (r : FcRow) : Decidable (boundsOk r) := by
  unfold boundsOk; infer_instance

/-- Scenario 1 rows of the spec: (2024-01-05, A, X, North, 100),
(2024-01-20, A, X, North, 50), (2024-02-10, B, Y, South, 200). -/
def scenarioRows : List Row :=
  [⟨⟨2024, 1, 5⟩, 100, "A", "X", "North"⟩,
   ⟨⟨2024, 1, 20⟩, 50, "A", "X", "North"⟩,
   ⟨⟨2024, 2, 10⟩, 200, "B", "Y", "South"⟩]

/-- The two-month aggregated series of scenario 1, presented as rows. -/
def twoMonthDf : List Row :=
  [⟨⟨2024, 1, 1⟩, 150, "A", "X", "North"⟩,
   ⟨⟨2024, 2, 1⟩, 200, "B", "Y", "South"⟩]

/-- One-row dataset (spec scenario 4). -/
def dfOne : List Row := [⟨⟨2024, 1, 5⟩, 100, "A", "X", "North"⟩]

/-- Two rows on the same date, for invariant testing. -/
def dupDf : List Row :=
  [⟨⟨2024, 1, 5⟩, 100, "A", "X", "North"⟩,
   ⟨⟨2024, 1, 5⟩, 50, "A", "X", "North"⟩]

/-- A constant black-box model: point 100, bounds [90, 110]. -/
def modelConst : List (Date × Int) → Date → Int × Int × Int := fun _ _ => (100, 90, 110)

/-- A black-box model whose output violates lower ≤ point ≤ upper:
point 0, lower 5, upper 1. -/
def modelBad : List (Date × Int) → Date → Int × Int × Int := fun _ _ => (0, 5, 1)

/-- Raw table with a date column and a donation column but none of the
other columns the spec declares required. -/
def tMissing : RawTable :=
  ⟨["Date", "Total_Donations_RWF"], [["2024-01-05", "100"]]⟩

/-- Raw table whose second row has an unparseable date. -/
def tBadDate : RawTable :=
  ⟨["date", "total_donations_rwf"], [["2024-01-05", "100"], ["notadate", "50"]]⟩

/-- Raw table whose single column matches both the date test and the
donation test. -/
def tDegen : RawTable := ⟨["donation_date_rwf"], [["2024-03-31"]]⟩

theorem monthEndsFrom_length (n : Nat) : ∀ y m, (monthEndsFrom y m n).length = n := by
  induction n with
  | zero => intro y m; rfl
  | succ k ih => intro y m; simp [monthEndsFrom, ih]

theorem futureMonthEnds_length (last : Date) (n : Nat) :
    (futureMonthEnds last n).length = n := by
  unfold futureMonthEnds
  split <;> exact monthEndsFrom_length n _ _

theorem insertSorted_length (x : Date) (l : List Date) :
    (insertSorted x l).length = l.length + 1 := by
  induction l with
  | nil => rfl
  | cons z zs ih => simp only [insertSorted]; split <;> simp [ih]

theorem sortDates_length (l : List Date) : (sortDates l).length = l.length := by
  induction l with
  | nil => rfl
  | cons x xs ih =>
    show (insertSorted x (sortDates xs)).length = xs.length + 1
    rw [insertSorted_length, ih]

theorem dedupSorted_ne_nil : ∀ (l : List Date), l ≠ [] → dedupSorted l ≠ []
  | [], h => absurd rfl h
  | [x], _ => by simp [dedupSorted]
  | x :: z :: zs, _ => by
    simp only [dedupSorted]
    split
    · exact dedupSorted_ne_nil (z :: zs) (by simp)
    · simp

theorem sortedUniqueDates_ne_nil (l : List Date) (h : l ≠ []) :
    sortedUniqueDates l ≠ [] := by
  unfold sortedUniqueDates
  apply dedupSorted_ne_nil
  intro hc
  have hl := sortDates_length l
  rw [hc] at hl
  exact h (List.length_eq_zero.mp hl.symm)

theorem getLast?_isSome_of_ne_nil : ∀ (l : List Date), l ≠ [] → ∃ x, l.getLast? = some x
  | [], h => absurd rfl h
  | [x], _ => ⟨x, rfl⟩
  | x :: z :: zs, _ => by
    rw [List.getLast?_cons_cons]
    exact getLast?_isSome_of_ne_nil (z :: zs) (by simp)

theorem load_data_some_inv (t : RawTable) (lt : LoadedTable) (h : load_data t = some lt) :
    ∃ dc yc ds, dateColOf t = some dc ∧ yColOf t = some yc ∧
      (colValues t dc).mapM parseDate = some ds ∧
      lt = ⟨t.cols.map (renameCol dc yc), t.rows, ds⟩ := by
  unfold load_data at h
  split at h
  · exact absurd h (by simp)
  · next dc hdc =>
    split at h
    · exact absurd h (by simp)
    · next ds hds =>
      split at h
      · exact absurd h (by simp)
      · next yc hyc =>
        exact ⟨dc, yc, ds, hdc, hyc, hds, (Option.some_inj.mp h).symm⟩

theorem load_data_none_of_dateCol (t : RawTable) (h : dateColOf t = none) :
    load_data t = none := by
  unfold load_data; rw [h]

theorem load_data_none_of_yCol (t : RawTable) (h : yColOf t = none) :
    load_data t = none := by
  cases hl : load_data t with
  | none => rfl
  | some lt =>
    obtain ⟨dc, yc, ds, _, hyc, _, _⟩ := load_data_some_inv t lt hl
    rw [h] at hyc
    exact absurd hyc (by simp)

theorem load_data_rows_eq (t : RawTable) (lt : LoadedTable) (h : load_data t = some lt) :
    lt.rows = t.rows := by
  obtain ⟨dc, yc, ds, _, _, _, rfl⟩ := load_data_some_inv t lt h
  rfl

/-- C3: for every input table and every triple of filter sets, the filter
output rows form a sublist (hence a subset) of the input rows; every output
row's donor / campaign_type / region value lies in the corresponding set
whenever that set is non-empty; any input row satisfying all the non-empty
set constraints is kept, so an empty set imposes no restriction on its
dimension; and three empty sets return the table unchanged. -/
theorem claim_C3_filter_engine (df : List Row) (donors campaigns regions : List String) :
    (applyFilters df donors campaigns regions).Sublist df ∧
    (∀ r ∈ applyFilters df donors campaigns regions,
      (donors ≠ [] → r.donor ∈ donors) ∧
      (campaigns ≠ [] → r.campaign_type ∈ campaigns) ∧
      (regions ≠ [] → r.region ∈ regions)) ∧
    (∀ r ∈ df,
      (donors = [] ∨ r.donor ∈ donors) →
      (campaigns = [] ∨ r.campaign_type ∈ campaigns) →
      (regions = [] ∨ r.region ∈ regions) →
      r ∈ applyFilters df donors campaigns regions) ∧
    applyFilters df [] [] [] = df := by
  unfold applyFilters
  refine ⟨?_, ?_, ?_, rfl⟩
  · split
    · exact List.Sublist.refl df
    · exact List.filter_sublist df
  · intro r hr
    split at hr
    · next hcond =>
      simp only [Bool.and_eq_true, List.isEmpty_iff] at hcond
      exact ⟨fun hne => absurd hcond.1.1 hne, fun hne => absurd hcond.1.2 hne,
        fun hne => absurd hcond.2 hne⟩
    · rw [List.mem_filter] at hr
      have hp := hr.2
      simp only [Bool.and_eq_true, Bool.or_eq_true, decide_eq_true_eq,
        List.isEmpty_iff] at hp
      refine ⟨fun hne => ?_, fun hne => ?_, fun hne => ?_⟩
      · rcases hp.1.1 with h | h
        · exact absurd h hne
        · exact h
      · rcases hp.1.2 with h | h
        · exact absurd h hne
        · exact h
      · rcases hp.2 with h | h
        · exact absurd h hne
        · exact h
  · intro r hr h1 h2 h3
    split
    · exact hr
    · rw [List.mem_filter]
      refine ⟨hr, ?_⟩
      simp only [Bool.and_eq_true, Bool.or_eq_true, decide_eq_true_eq, List.isEmpty_iff]
      exact ⟨⟨h1, h2⟩, h3⟩

/-- C3 witness: the theorem instantiated at the scenario rows with the
donor filter {"A"}. -/
theorem claim_C3_filter_engine_witness :
    (applyFilters scenarioRows ["A"] [] []).Sublist scenarioRows ∧
    (∀ r ∈ applyFilters scenarioRows ["A"] [] [],
      (["A"] ≠ ([] : List String) → r.donor ∈ ["A"]) ∧
      (([] : List String) ≠ [] → r.campaign_type ∈ ([] : List String)) ∧
      (([] : List String) ≠ [] → r.region ∈ ([] : List String))) ∧
    (∀ r ∈ scenarioRows,
      (["A"] = ([] : List String) ∨ r.donor ∈ ["A"]) →
      (([] : List String) = [] ∨ r.campaign_type ∈ ([] : List String)) →
      (([] : List String) = [] ∨ r.region ∈ ([] : List String)) →
      r ∈ applyFilters scenarioRows ["A"] [] []) ∧
    applyFilters scenarioRows [] [] [] = scenarioRows :=
  claim_C3_filter_engine scenarioRows ["A"] [] []

/-- C1 counterexample: for the one-row dataset of scenario 4 the forecast
block does not fail with InsufficientDataError: it invokes the black-box
model on the history date and the requested future month-end and returns
the model's output. -/
theorem claim_C1_counterexample :
    forecastStep modelConst dfOne 1 =
      Except.ok [⟨⟨2024, 1, 5⟩, 100, 90, 110⟩, ⟨⟨2024, 1, 31⟩, 100, 90, 110⟩] ∧
    forecastStep modelConst dfOne 1 ≠
      Except.error (PipelineError.InsufficientDataError 2 1) :=
  ⟨by decide, by decide⟩

/-- C1 amended: the forecast block performs no length validation: for an
empty dataframe it succeeds with no rows, and for any one-row dataframe it
succeeds and returns the model's output on 1 + horizon grid dates; no
InsufficientDataError is produced on this code path, any rejection of a
short series being the external library's own, after invocation. -/
theorem claim_C1_amended_no_length_check :
    (∀ (model : List (Date × Int) → Date → Int × Int × Int) (months : Nat),
      forecastStep model [] months = Except.ok []) ∧
    (∀ (model : List (Date × Int) → Date → Int × Int × Int) (r : Row) (months : Nat),
      ∃ out, forecastStep model [r] months = Except.ok out ∧ out.length = months + 1) := by
  constructor
  · intro model months; rfl
  · intro model r months
    refine ⟨runForecast model [r] months, rfl, ?_⟩
    have hm : makeFutureDataframe [r] months = r.ds :: futureMonthEnds r.ds months := rfl
    simp [runForecast, hm, futureMonthEnds_length]

/-- C1 amended witness: the amended theorem at the one-row dataset with
horizon 1. -/
theorem claim_C1_amended_no_length_check_witness :
    ∃ out, forecastStep modelConst [⟨⟨2024, 1, 5⟩, 100, "A", "X", "North"⟩] 1 =
      Except.ok out ∧ out.length = 1 + 1 :=
  claim_C1_amended_no_length_check.2 modelConst ⟨⟨2024, 1, 5⟩, 100, "A", "X", "North"⟩ 1

/-- C2 counterexample: on the three scenario rows, with no filters
selected, the series the program hands the model is the three raw
transaction pairs, not the two-bucket monthly aggregation; the spec-worded
monthly aggregator does produce [(2024-01-01, 150), (2024-02-01, 200)]. -/
theorem claim_C2_counterexample :
    fitInput (applyFilters scenarioRows [] [] []) =
      [(⟨2024, 1, 5⟩, 100), (⟨2024, 1, 20⟩, 50), (⟨2024, 2, 10⟩, 200)] ∧
    aggregateMonthlySpec scenarioRows = [(⟨2024, 1, 1⟩, 150), (⟨2024, 2, 1⟩, 200)] ∧
    fitInput (applyFilters scenarioRows [] [] []) ≠ aggregateMonthlySpec scenarioRows :=
  ⟨by decide, by decide, by decide⟩

/-- C2 amended: the pipeline performs no monthly aggregation: the series
handed to the model keeps exactly one entry per filtered row, carrying the
row's own date; on the scenario rows it is the three raw (date, amount)
pairs rather than the spec's two monthly buckets. -/
theorem claim_C2_amended_no_aggregation :
    (∀ df : List Row, (fitInput df).length = df.length ∧
      (fitInput df).map Prod.fst = df.map (fun r => r.ds)) ∧
    fitInput (applyFilters scenarioRows [] [] []) =
      [(⟨2024, 1, 5⟩, 100), (⟨2024, 1, 20⟩, 50), (⟨2024, 2, 10⟩, 200)] := by
  constructor
  · intro df
    constructor
    · simp [fitInput]
    · simp [fitInput, List.map_map, Function.comp]
  · decide

/-- C2 amended witness: the amended theorem's universal part at the
scenario rows. -/
theorem claim_C2_amended_no_aggregation_witness :
    (fitInput scenarioRows).length = scenarioRows.length ∧
    (fitInput scenarioRows).map Prod.fst = scenarioRows.map (fun r => r.ds) :=
  claim_C2_amended_no_aggregation.1 scenarioRows

/-- C4 counterexample: feeding the two-month series of scenario 1 with
horizon 1 through the forecast block yields 3 rows as claimed, but the
future row's period is 2024-02-29 — the month-end date that pandas
frequency 'M' generates — not 2024-03-01. -/
theorem claim_C4_counterexample :
    (runForecast modelConst twoMonthDf 1).map (fun r => r.ds) =
      [⟨2024, 1, 1⟩, ⟨2024, 2, 1⟩, ⟨2024, 2, 29⟩] ∧
    (runForecast modelConst twoMonthDf 1).length = 3 ∧
    (⟨2024, 2, 29⟩ : Date) ≠ (⟨2024, 3, 1⟩ : Date) :=
  ⟨by decide, by decide, by decide⟩

/-- C4 amended: for every model, non-empty dataframe and horizon, the
prediction has exactly (number of distinct history dates) + horizon rows;
on the two-month series with horizon 1 that is 3 rows, but the future
period is the month end 2024-02-29, not 2024-03-01. -/
theorem claim_C4_amended_row_count :
    (∀ (model : List (Date × Int) → Date → Int × Int × Int) (df : List Row) (months : Nat),
      df ≠ [] →
      (runForecast model df months).length =
        (sortedUniqueDates (df.map (fun r => r.ds))).length + months) ∧
    (runForecast modelConst twoMonthDf 1).map (fun r => r.ds) =
      [⟨2024, 1, 1⟩, ⟨2024, 2, 1⟩, ⟨2024, 2, 29⟩] := by
  constructor
  · intro model df months hne
    have hmap : df.map (fun r => r.ds) ≠ [] := by
      intro hc; exact hne (List.map_eq_nil_iff.mp hc)
    have hhist := sortedUniqueDates_ne_nil _ hmap
    obtain ⟨last, hlast⟩ := getLast?_isSome_of_ne_nil _ hhist
    have hm : makeFutureDataframe df months =
        sortedUniqueDates (df.map (fun r => r.ds)) ++ futureMonthEnds last months := by
      simp [makeFutureDataframe, hlast]
    simp [runForecast, hm, futureMonthEnds_length]
  · decide

/-- C4 amended witness: the amended theorem's universal part at the
two-month series with horizon 1. -/
theorem claim_C4_amended_row_count_witness :
    twoMonthDf ≠ [] ∧
    (runForecast modelConst twoMonthDf 1).length =
      (sortedUniqueDates (twoMonthDf.map (fun r => r.ds))).length + 1 :=
  ⟨by decide, claim_C4_amended_row_count.1 modelConst twoMonthDf 1 (by decide)⟩

/-- C5 counterexample: a black-box model output violating
lower ≤ point ≤ upper passes through the forecast block verbatim: no
clamping occurs and the returned rows violate the invariant. -/
theorem claim_C5_counterexample :
    runForecast modelBad dfOne 1 =
      [⟨⟨2024, 1, 5⟩, 0, 5, 1⟩, ⟨⟨2024, 1, 31⟩, 0, 5, 1⟩] ∧
    ((runForecast modelBad dfOne 1).all (fun r => decide (boundsOk r))) = false :=
  ⟨by decide, by decide⟩

/-- C5 amended: the program applies no clamping: every result row is the
model's raw output at its grid date, so lower ≤ point ≤ upper holds of the
result exactly when the model's own output satisfies it on the prediction
grid. -/
theorem claim_C5_amended_no_clamping
    (model : List (Date × Int) → Date → Int × Int × Int) (df : List Row) (months : Nat) :
    (∀ r ∈ runForecast model df months, boundsOk r) ↔
    (∀ dt ∈ makeFutureDataframe df months, boundsOk (mkFcRow dt (model (fitInput df) dt))) := by
  unfold runForecast
  constructor
  · intro h dt hdt
    exact h _ (List.mem_map_of_mem _ hdt)
  · intro h r hr
    obtain ⟨dt, hdt, rfl⟩ := List.mem_map.mp hr
    exact h dt hdt

/-- C5 amended witness: the amended theorem at the constant in-bounds
model on the one-row dataset. -/
theorem claim_C5_amended_no_clamping_witness :
    (∀ r ∈ runForecast modelConst dfOne 1, boundsOk r) ↔
    (∀ dt ∈ makeFutureDataframe dfOne 1,
      boundsOk (mkFcRow dt (modelConst (fitInput dfOne) dt))) :=
  claim_C5_amended_no_clamping modelConst dfOne 1

/-- C6 counterexample: with two donations on the same date the series the
program fits on has duplicate periods that are not month-aligned: the
strict monotonicity, uniqueness and bucket-alignment invariants fail on
the code. -/
theorem claim_C6_counterexample :
    (fitInput dupDf).map Prod.fst = [⟨2024, 1, 5⟩, ⟨2024, 1, 5⟩] ∧
    strictlyIncreasingDates ((fitInput dupDf).map Prod.fst) = false ∧
    (⟨2024, 1, 5⟩ : Date).d ≠ 1 :=
  ⟨by decide, by decide, by decide⟩

/-- C6 amended: no aggregation exists, so the fitted series keeps the
filtered rows' own dates, possibly repeated and not aligned to bucket
starts; what survives of the invariant is the conservation law in trivial
form: the fitted values sum to the filtered rows' amounts, one summand per
row. -/
theorem claim_C6_amended_conservation (df : List Row) :
    ((fitInput df).map Prod.snd).sum = (df.map (fun r => r.y)).sum ∧
    (fitInput df).length = df.length := by
  constructor
  · simp only [fitInput, List.map_map]
    rfl
  · simp [fitInput]

/-- C6 amended witness: the amended theorem at the duplicate-date rows. -/
theorem claim_C6_amended_conservation_witness :
    ((fitInput dupDf).map Prod.snd).sum = (dupDf.map (fun r => r.y)).sum ∧
    (fitInput dupDf).length = dupDf.length :=
  claim_C6_amended_conservation dupDf

/-- C7 counterexample: a table whose only columns are "Date" and
"Total_Donations_RWF" — missing the spec's required donor, campaign_type,
region and amount columns — loads successfully, and the returned column
names are "ds" and "y", which are neither the normalized lowercase
originals nor a SchemaError naming the missing columns. -/
theorem claim_C7_counterexample :
    (load_data tMissing).map (fun lt => lt.cols) = some ["ds", "y"] ∧
    ¬ ("donor" ∈ tMissing.cols) ∧
    (["ds", "y"] : List String) ≠ ["date", "total_donations_rwf"] :=
  ⟨by decide, by decide, by decide⟩

/-- C7 amended: loading matches no set of required column names: it
selects one date-like and one donation/rwf column by lowercase substring
search, renames the selected columns (to "ds" and "y") while keeping every
other column name verbatim — not lowercased, not trimmed — keeps every
row, and reports every failure by returning no table; no SchemaError and
no missing-column list exist. -/
theorem claim_C7_amended_loader (t : RawTable) (lt : LoadedTable)
    (h : load_data t = some lt) :
    ∃ dc yc, dateColOf t = some dc ∧ yColOf t = some yc ∧
      lt.cols = t.cols.map (renameCol dc yc) ∧ lt.rows = t.rows := by
  obtain ⟨dc, yc, ds, hdc, hyc, hp, rfl⟩ := load_data_some_inv t lt h
  exact ⟨dc, yc, hdc, hyc, rfl, rfl⟩

/-- C7 amended witness: the amended theorem at the two-column table. -/
theorem claim_C7_amended_loader_witness :
    ∃ dc yc, dateColOf tMissing = some dc ∧ yColOf tMissing = some yc ∧
      (⟨["ds", "y"], [["2024-01-05", "100"]], [⟨2024, 1, 5⟩]⟩ : LoadedTable).cols =
        tMissing.cols.map (renameCol dc yc) ∧
      (⟨["ds", "y"], [["2024-01-05", "100"]], [⟨2024, 1, 5⟩]⟩ : LoadedTable).rows =
        tMissing.rows :=
  claim_C7_amended_loader tMissing
    ⟨["ds", "y"], [["2024-01-05", "100"]], [⟨2024, 1, 5⟩]⟩ (by decide)

/-- C8 counterexample: a two-row table whose second date value is
unparseable loads to nothing at all: the whole load fails, no rows are
dropped-and-reported, and the parseable first row is not retained. -/
theorem claim_C8_counterexample :
    load_data tBadDate = none ∧
    parseDate "2024-01-05" = some ⟨2024, 1, 5⟩ ∧
    tBadDate.rows.length = 2 :=
  ⟨by decide, by decide, by decide⟩

/-- C8 amended: unparseable date rows are never dropped or counted: if any
value of the selected date column fails to parse, the whole load returns
nothing; and whenever loading succeeds, every row of the upload is
retained. -/
theorem claim_C8_amended_all_or_nothing :
    (∀ (t : RawTable) (dc : String), dateColOf t = some dc →
      (colValues t dc).mapM parseDate = none → load_data t = none) ∧
    (∀ (t : RawTable) (lt : LoadedTable), load_data t = some lt →
      lt.rows.length = t.rows.length) := by
  constructor
  · intro t dc hdc hp
    cases hl : load_data t with
    | none => rfl
    | some lt =>
      obtain ⟨dc2, yc, ds, hdc2, _, hp2, _⟩ := load_data_some_inv t lt hl
      have hde : dc2 = dc := by
        rw [hdc] at hdc2
        exact (Option.some_inj.mp hdc2).symm
      subst hde
      rw [hp] at hp2
      exact Option.noConfusion hp2
  · intro t lt h
    rw [load_data_rows_eq t lt h]

/-- C8 amended witness: the amended theorem at the table with one bad
date row. -/
theorem claim_C8_amended_all_or_nothing_witness :
    dateColOf tBadDate = some "date" ∧
    (colValues tBadDate "date").mapM parseDate = none ∧
    load_data tBadDate = none :=
  ⟨by decide, by decide,
    claim_C8_amended_all_or_nothing.1 tBadDate "date" (by decide) (by decide)⟩

/-- C9 counterexample: a donor filter naming a donor absent from the data
eliminates every row, yet no EmptyResultError is raised: the pipeline
reaches the forecast stage and returns successfully on the zero-row
table. -/
theorem claim_C9_counterexample :
    applyFilters dfOne ["Z"] [] [] = [] ∧
    pipelineForecast modelConst dfOne ["Z"] [] [] 1 = Except.ok [] ∧
    pipelineForecast modelConst dfOne ["Z"] [] [] 1 ≠
      Except.error PipelineError.EmptyResultError :=
  ⟨by decide, by decide, by decide⟩

/-- C9 amended: no emptiness check sits between the filter and forecast
stages: whenever the filters eliminate all rows, the pipeline still
reaches the forecast step, which succeeds with an empty result instead of
raising EmptyResultError; any failure of the real fit on zero rows is the
external library's own, after invocation. -/
theorem claim_C9_amended_no_empty_check
    (model : List (Date × Int) → Date → Int × Int × Int)
    (df : List Row) (donors campaigns regions : List String) (months : Nat)
    (h : applyFilters df donors campaigns regions = []) :
    pipelineForecast model df donors campaigns regions months = Except.ok [] := by
  show forecastStep model (applyFilters df donors campaigns regions) months = Except.ok []
  rw [h]
  rfl

/-- C9 amended witness: the amended theorem at the one-row table with an
absent donor selected. -/
theorem claim_C9_amended_no_empty_check_witness :
    applyFilters dfOne ["Z"] [] [] = [] ∧
    pipelineForecast modelConst dfOne ["Z"] [] [] 12 = Except.ok [] :=
  ⟨by decide, claim_C9_amended_no_empty_check modelConst dfOne ["Z"] [] [] 12 (by decide)⟩

/-- C10 counterexample: a single column "donation_date_rwf" passes both
substring tests; the Python rename dict {col: "ds", col: "y"} collapses to
{col: "y"}, so the loaded table has a "y" column and no "ds" column,
against the claim's "renames exactly those two columns to ds and y". -/
theorem claim_C10_counterexample :
    load_data tDegen = some ⟨["y"], [["2024-03-31"]], [⟨2024, 3, 31⟩]⟩ ∧
    ¬ ("ds" ∈ (["y"] : List String)) :=
  ⟨by decide, by decide⟩

/-- C10 amended: loading selects the date column as the first column (in
table order) whose lowercased name contains "date" and the value column as
the first whose lowercased name contains both "donation" and "rwf"; when
the two selections differ it renames exactly those two columns to "ds" and
"y" and leaves every other column unchanged; when a single column is
selected for both roles it is renamed to "y" only; and if either substring
test matches no column, loading returns no table rather than raising. -/
theorem claim_C10_amended_column_detection :
    (∀ t : RawTable, dateColOf t = none ∨ yColOf t = none → load_data t = none) ∧
    (∀ (t : RawTable) (lt : LoadedTable) (dc yc : String),
      load_data t = some lt → dateColOf t = some dc → yColOf t = some yc → dc ≠ yc →
      lt.cols = t.cols.map (fun c => if c = dc then "ds" else if c = yc then "y" else c)) ∧
    (∀ (t : RawTable) (lt : LoadedTable) (dc : String),
      load_data t = some lt → dateColOf t = some dc → yColOf t = some dc →
      lt.cols = t.cols.map (fun c => if c = dc then "y" else c)) := by
  refine ⟨?_, ?_, ?_⟩
  · intro t h
    cases h with
    | inl h => exact load_data_none_of_dateCol t h
    | inr h => exact load_data_none_of_yCol t h
  · intro t lt dc yc hl hdc hyc hne
    obtain ⟨dc2, yc2, ds, hdc2, hyc2, _, rfl⟩ := load_data_some_inv t lt hl
    have hde : dc2 = dc := by
      rw [hdc] at hdc2; exact (Option.some_inj.mp hdc2).symm
    have hye : yc2 = yc := by
      rw [hyc] at hyc2; exact (Option.some_inj.mp hyc2).symm
    show t.cols.map (renameCol dc2 yc2) = _
    rw [hde, hye]
    have hfe : renameCol dc yc = fun c => if c = dc then "ds" else if c = yc then "y" else c := by
      funext c
      unfold renameCol
      by_cases h1 : c = yc
      · subst h1
        have h2 : ¬ (c = dc) := fun hc => hne (by rw [← hc])
        simp [h2]
      · by_cases h2 : c = dc <;> simp [h1, h2, hne]
    rw [hfe]
  · intro t lt dc hl hdc hyc
    obtain ⟨dc2, yc2, ds, hdc2, hyc2, _, rfl⟩ := load_data_some_inv t lt hl
    have hde : dc2 = dc := by
      rw [hdc] at hdc2; exact (Option.some_inj.mp hdc2).symm
    have hye : yc2 = dc := by
      rw [hyc] at hyc2; exact (Option.some_inj.mp hyc2).symm
    show t.cols.map (renameCol dc2 yc2) = _
    rw [hde, hye]
    have hfe : renameCol dc dc = fun c => if c = dc then "y" else c := by
      funext c
      unfold renameCol
      by_cases h1 : c = dc <;> simp [h1]
    rw [hfe]

/-- C10 amended witness: the amended theorem at a table with no matching
column, at the two-column table, and at the degenerate one-column table. -/
theorem claim_C10_amended_column_detection_witness :
    load_data (⟨["foo"], [["1"]]⟩ : RawTable) = none ∧
    (⟨["ds", "y"], [["2024-01-05", "100"]], [⟨2024, 1, 5⟩]⟩ : LoadedTable).cols =
      tMissing.cols.map (fun c => if c = "Date" then "ds"
        else if c = "Total_Donations_RWF" then "y" else c) ∧
    (⟨["y"], [["2024-03-31"]], [⟨2024, 3, 31⟩]⟩ : LoadedTable).cols =
      tDegen.cols.map (fun c => if c = "donation_date_rwf" then "y" else c) :=
  ⟨claim_C10_amended_column_detection.1 ⟨["foo"], [["1"]]⟩ (Or.inl (by decide)),
   claim_C10_amended_column_detection.2.1 tMissing
     ⟨["ds", "y"], [["2024-01-05", "100"]], [⟨2024, 1, 5⟩]⟩ "Date" "Total_Donations_RWF"
     (by decide) (by decide) (by decide) (by decide),
   claim_C10_amended_column_detection.2.2 tDegen
     ⟨["y"], [["2024-03-31"]], [⟨2024, 3, 31⟩]⟩ "donation_date_rwf"
     (by decide) (by decide) (by decide)⟩
